import Mathlib

/-!
Verification of the solute-transport pipeline of `app35.py`
(Solute Transport Modeling with HTBCMG Coupling).

Modelling choices, stated once:

* numpy float arrays are `List ℝ`; real arithmetic stands in for IEEE
  doubles (the program performs only elementwise `*`, `/`, `+`, `-`,
  `exp` and `abs`).  Division is Lean's total real division, so the
  program's unguarded `0/0` (a numpy `nan` that is charted without an
  exception) appears here as the value `0/0 : ℝ`; no claim below
  depends on the numeric value of such a degenerate cell.
* numpy 1-D broadcasting is explicit: an elementwise binary operation
  on arrays of different lengths succeeds only when one operand has
  length one, and otherwise is the runtime error
  "operands could not be broadcast together".  Fallible steps return
  `Except String (List ℝ)`.
* `np.random.normal(0, 0.01, 100)` is modelled by an oracle
  `ω : ℕ → ℝ` supplying the 100 samples drawn for one run; a run of
  the program is the function applied to one oracle.
* Python's substring test `needle in hay` is `pyIn`, and Python's
  builtin `max` over a nonempty array is `pyMax`.
-/

namespace App35

noncomputable section

/-- leadsWith n h is true when the list n is an initial segment of h
(helper for the Python substring test). -/
def leadsWith : List Char → List Char → Bool
  | [], _ => true
  | _ :: _, [] => false
  | a :: as, b :: bs => a == b && leadsWith as bs

/-- pyIn n h is Python's containment test for strings viewed as char
lists: n occurs contiguously somewhere in h. -/
def pyIn : List Char → List Char → Bool
  | n, [] => leadsWith n []
  | n, c :: t => leadsWith n (c :: t) || pyIn n t

/-- pyInStr needle hay models the Python expression needle in hay. -/
def pyInStr (needle hay : String) : Bool :=
  pyIn needle.data hay.data

/-- pyMax models the Python builtin max over a numpy array; the
program only applies it to arrays of length 100 (max on an empty
sequence would raise, the [] case here is dead code). -/
def pyMax : List ℝ → ℝ
  | [] => 0
  | x :: xs => xs.foldl max x

/-- npBinop models a numpy elementwise binary operation with 1-D
broadcasting: equal lengths pair up, a length-one operand is
stretched, anything else is the numpy ValueError. -/
def npBinop (f : ℝ → ℝ → ℝ) (xs ys : List ℝ) : Except String (List ℝ) :=
  if xs.length = ys.length then Except.ok (List.zipWith f xs ys)
  else if xs.length = 1 then Except.ok (ys.map (fun y => f (xs.headD 0) y))
  else if ys.length = 1 then Except.ok (xs.map (fun x => f x (ys.headD 0)))
  else Except.error ("operands could not be broadcast together")

/-- npArange models np.arange(n), an integer array. -/
def npArange (n : ℕ) : List ℕ :=
  List.range n

/-- linVal a b n t is the t-th sample of np.linspace(a, b, n):
a + (b - a) * t / (n - 1). -/
def linVal (a b : ℝ) (n : ℕ) (t : ℕ) : ℝ :=
  a + (b - a) * (t : ℝ) / ((n - 1 : ℕ) : ℝ)

/-- linspace models np.linspace(a, b, n) with its default inclusive
endpoint. -/
def linspace (a b : ℝ) (n : ℕ) : List ℝ :=
  (List.range n).map (linVal a b n)

/-- hydraulic_flow: np.ones((100,)) * parameters["hydraulic_gradient"]
(app35.py lines 9-11). -/
def hydraulic_flow (g : ℝ) : List ℝ :=
  (List.replicate 100 (1 : ℝ)).map (fun x => x * g)

/-- thermal_transport: np.linspace(20, 60, 100) (app35.py lines 13-15). -/
def thermal_transport : List ℝ :=
  linspace 20 60 100

/-- biodegradation: concentration * np.exp(-k * np.arange(100))
(app35.py lines 17-20); elementwise, so it broadcasts the length-100
decay array against the concentration array. -/
def biodegradation (conc : List ℝ) (k : ℝ) : Except String (List ℝ) :=
  npBinop (fun a b => a * b) conc ((npArange 100).map (fun (t : ℕ) => Real.exp (-k * (t : ℝ))))

/-- chemical_interactions: concentration / (1 + kd)
(app35.py lines 22-25); a scalar division, never a broadcast error. -/
def chemical_interactions (conc : List ℝ) (kd : ℝ) : List ℝ :=
  conc.map (fun c => c / (1 + kd))

/-- mechanical_response: np.random.normal(0, 0.01, 100)
(app35.py lines 27-29); the oracle ω lists the 100 samples drawn. -/
def mechanical_response (ω : ℕ → ℝ) : List ℝ :=
  (List.range 100).map ω

/-- gas_transport: np.linspace(0, 1, 100) (app35.py lines 31-33). -/
def gas_transport : List ℝ :=
  linspace 0 1 100

/-- branchBasic: line 54-55, `if model_type == "Basic": concentration =
concentration * np.exp(-0.01 * time)`. -/
def branchBasic (m : String) (time : List ℕ) (conc : List ℝ) : Except String (List ℝ) :=
  if m == "Basic" then
    npBinop (fun a b => a * b) conc (time.map (fun (t : ℕ) => Real.exp (-0.01 * (t : ℝ))))
  else Except.ok conc

/-- branchHydro: lines 58-60, `if "Hydro" in model_type:` compute the
flow array and multiply concentration by flow / max(flow). -/
def branchHydro (m : String) (g : ℝ) (conc : List ℝ) : Except String (List ℝ) :=
  if pyInStr ("Hydro") m then
    npBinop (fun a b => a * b) conc
      ((hydraulic_flow g).map (fun x => x / pyMax (hydraulic_flow g)))
  else Except.ok conc

/-- branchThermal: lines 63-65, `if "HT" in model_type:` multiply by
1 + 0.01 * (temperature - 20). -/
def branchThermal (m : String) (conc : List ℝ) : Except String (List ℝ) :=
  if pyInStr ("HT") m then
    npBinop (fun a b => a * b) conc (thermal_transport.map (fun T => 1 + 0.01 * (T - 20)))
  else Except.ok conc

/-- branchBio: lines 68-69, `if "B" in model_type:` apply biodegradation. -/
def branchBio (m : String) (k : ℝ) (conc : List ℝ) : Except String (List ℝ) :=
  if pyInStr ("B") m then biodegradation conc k else Except.ok conc

/-- branchChem: lines 72-73, `if "C" in model_type:` apply
chemical_interactions (a scalar operation, always succeeds). -/
def branchChem (m : String) (kd : ℝ) (conc : List ℝ) : Except String (List ℝ) :=
  if pyInStr ("C") m then Except.ok (chemical_interactions conc kd) else Except.ok conc

/-- branchMech: lines 76-78, `if "M" in model_type:` multiply by
1 - np.abs(deformation). -/
def branchMech (m : String) (ω : ℕ → ℝ) (conc : List ℝ) : Except String (List ℝ) :=
  if pyInStr ("M") m then
    npBinop (fun a b => a * b) conc ((mechanical_response ω).map (fun d => 1 - |d|))
  else Except.ok conc

/-- branchGas: lines 81-83, `if "G" in model_type:` multiply by
1 - gas / max(gas). -/
def branchGas (m : String) (conc : List ℝ) : Except String (List ℝ) :=
  if pyInStr ("G") m then
    npBinop (fun a b => a * b) conc (gas_transport.map (fun x => 1 - x / pyMax gas_transport))
  else Except.ok conc

/-- runSimulation: the Run Simulation pipeline, lines 49-83.  time =
np.arange(time_steps), concentration = np.ones(time_steps) *
initial_conc, then the seven conditional branches in program order. -/
def runSimulation (m : String) (n : ℕ) (c0 g k kd : ℝ) (ω : ℕ → ℝ) :
    Except String (List ℝ) :=
  (branchBasic m (npArange n) ((List.replicate n (1 : ℝ)).map (fun x => x * c0))).bind
    (fun c1 => (branchHydro m g c1).bind
      (fun c2 => (branchThermal m c2).bind
        (fun c3 => (branchBio m k c3).bind
          (fun c4 => (branchChem m kd c4).bind
            (fun c5 => (branchMech m ω c5).bind
              (fun c6 => branchGas m c6))))))

/-- Frame models the pandas DataFrame built on line 86:
pd.DataFrame with columns Time and Concentration. -/
structure Frame where
  time : List ℕ
  conc : List ℝ

/-- mkFrame n conc is `pd.DataFrame({"Time": np.arange(n),
"Concentration": conc})`. -/
def mkFrame (n : ℕ) (conc : List ℝ) : Frame :=
  ⟨npArange n, conc⟩

/-- chartSeries models what line 88 displays:
st.line_chart(df.set_index("Time")), i.e. the (Time, Concentration)
row pairs of the frame. -/
def chartSeries (fr : Frame) : List (ℕ × ℝ) :=
  fr.time.zip fr.conc

/-- runDF: the row pairs of the frame a successful run builds. -/
def runDF (m : String) (n : ℕ) (c0 g k kd : ℝ) (ω : ℕ → ℝ) :
    Except String (List (ℕ × ℝ)) :=
  (runSimulation m n c0 g k kd ω).map (fun conc => chartSeries (mkFrame n conc))

/-- Cell is one CSV field of the line-90 export: a header word, the
decimal rendering of an integer, or the rendering of a float.  Pandas
renders a float with repr, which round-trips exactly; that lossless
text layer is modelled by carrying the value itself in the cell. -/
inductive Cell where
  | str : String → Cell
  | nat : ℕ → Cell
  | real : ℝ → Cell

/-- toCsv models df.to_csv(index=False) on line 90: a header row
Time,Concentration followed by one row per frame row, with no pandas
index column. -/
def toCsv (fr : Frame) : List (List Cell) :=
  [Cell.str ("Time"), Cell.str ("Concentration")] ::
    (fr.time.zip fr.conc).map (fun p => [Cell.nat p.1, Cell.real p.2])

/-- parseCsvRow reads back one data row of the export. -/
def parseCsvRow : List Cell → Option (ℕ × ℝ)
  | [Cell.nat t, Cell.real c] => some (t, c)
  | _ => none

/-- parseRows reads back all data rows, failing if any row is malformed. -/
def parseRows : List (List Cell) → Option (List (ℕ × ℝ))
  | [] => some []
  | r :: rs =>
    match parseCsvRow r, parseRows rs with
    | some p, some ps => some (p :: ps)
    | _, _ => none

/-- parseCsv checks the Time,Concentration header and reads the data
rows back as (time, concentration) pairs. -/
def parseCsv : List (List Cell) → Option (List (ℕ × ℝ))
  | (Cell.str h1 :: Cell.str h2 :: []) :: rows =>
    if h1 == "Time" && h2 == "Concentration" then parseRows rows else none
  | _ => none

/-- modelTypes is the selector set of line 41. -/
def modelTypes : List String :=
  ["Basic", "Hydro", "HT", "HTB", "HTBCM", "HTBCMG"]

/-- stepValue m c0 g k kd ω t is the closed form of the t-th entry of
the concentration array a 100-step run produces: the initial value
1 * c0 threaded through the seven branches in program order. -/
def stepValue (m : String) (c0 g k kd : ℝ) (ω : ℕ → ℝ) (t : ℕ) : ℝ :=
  let v0 : ℝ := 1 * c0
  let v1 : ℝ := if m == "Basic" then v0 * Real.exp (-0.01 * (t : ℝ)) else v0
  let v2 : ℝ := if pyInStr ("Hydro") m then
    v1 * (1 * g / pyMax (hydraulic_flow g)) else v1
  let v3 : ℝ := if pyInStr ("HT") m then v2 * (1 + 0.01 * (linVal 20 60 100 t - 20)) else v2
  let v4 : ℝ := if pyInStr ("B") m then v3 * Real.exp (-k * (t : ℝ)) else v3
  let v5 : ℝ := if pyInStr ("C") m then v4 / (1 + kd) else v4
  let v6 : ℝ := if pyInStr ("M") m then v5 * (1 - |ω t|) else v5
  let v7 : ℝ := if pyInStr ("G") m then
    v6 * (1 - linVal 0 1 100 t / pyMax gas_transport) else v6
  v7

/-! Evaluation lemmas: each branch applied to an array presented as a
map over `List.range`, and the closed form of a 100-step run. -/

/-- ok_bind: reducing a bind whose first step succeeded. -/
theorem ok_bind {α β : Type} (a : α) (f : α → Except String β) :
    (Except.ok a).bind f = f a := rfl

/-- err_bind: a failed step short-circuits the rest of the pipeline. -/
theorem err_bind {α β : Type} (e : String) (f : α → Except String β) :
    (Except.error e : Except String α).bind f = Except.error e := rfl

/-- bif_pos: an if on a boolean known to be true. -/
theorem bif_pos {α : Sort u} {b : Bool} (h : b = true) (x y : α) :
    (if b then x else y) = x := by subst h; rfl

/-- bif_neg: an if on a boolean known to be false. -/
theorem bif_neg {α : Sort u} {b : Bool} (h : b = false) (x y : α) :
    (if b then x else y) = y := by subst h; rfl

/-- map_const_range: a constant array of length n as a map over range n. -/
theorem map_const_range (n : ℕ) (x : ℝ) :
    (List.range n).map (fun _ => x) = List.replicate n x := by
  rw [List.map_const' (List.range n) x, List.length_range]

/-- npBinop_mul_maps: elementwise product of two arrays built over the
same index list pairs them index by index. -/
theorem npBinop_mul_maps (l : List ℕ) (u w : ℕ → ℝ) :
    npBinop (fun a b => a * b) (l.map u) (l.map w)
      = Except.ok (l.map (fun t => u t * w t)) := by
  unfold npBinop
  rw [if_pos (by simp)]
  rw [List.zipWith_map, List.zipWith_same]

/-- npBinop_err: mismatched lengths with no length-one operand is the
numpy broadcast error. -/
theorem npBinop_err (f : ℝ → ℝ → ℝ) (xs ys : List ℝ) (h : xs.length ≠ ys.length)
    (h1 : xs.length ≠ 1) (h2 : ys.length ≠ 1) :
    npBinop f xs ys = Except.error ("operands could not be broadcast together") := by
  unfold npBinop
  rw [if_neg h, if_neg h1, if_neg h2]

/-- hydraulic_flow_eq: the flow array is the constant array 1 * g. -/
theorem hydraulic_flow_eq (g : ℝ) :
    hydraulic_flow g = (List.range 100).map (fun _ => 1 * g) := by
  rw [map_const_range, hydraulic_flow, List.map_replicate]

/-- hydro_arr_eq: the normalized flow array flow / max(flow) as a map
over the 100 time indices. -/
theorem hydro_arr_eq (g : ℝ) :
    (hydraulic_flow g).map (fun x => x / pyMax (hydraulic_flow g))
      = (List.range 100).map (fun _ => 1 * g / pyMax (hydraulic_flow g)) := by
  generalize pyMax (hydraulic_flow g) = q
  rw [hydraulic_flow_eq, List.map_map]
  rfl

/-- thermal_arr_eq: the thermal factor array as a map over the 100
time indices. -/
theorem thermal_arr_eq :
    thermal_transport.map (fun T => 1 + 0.01 * (T - 20))
      = (List.range 100).map (fun t => 1 + 0.01 * (linVal 20 60 100 t - 20)) := by
  rw [show thermal_transport = (List.range 100).map (linVal 20 60 100) from rfl, List.map_map]
  rfl

/-- mech_arr_eq: the deformation factor array as a map over the 100
time indices. -/
theorem mech_arr_eq (ω : ℕ → ℝ) :
    (mechanical_response ω).map (fun d => 1 - |d|)
      = (List.range 100).map (fun t => 1 - |ω t|) := by
  rw [show mechanical_response ω = (List.range 100).map ω from rfl, List.map_map]
  rfl

/-- gas_arr_eq: the gas factor array 1 - gas / max(gas) as a map over
the 100 time indices. -/
theorem gas_arr_eq :
    gas_transport.map (fun x => 1 - x / pyMax gas_transport)
      = (List.range 100).map (fun t => 1 - linVal 0 1 100 t / pyMax gas_transport) := by
  generalize pyMax gas_transport = q
  rw [show gas_transport = (List.range 100).map (linVal 0 1 100) from rfl, List.map_map]
  rfl

/-- branchBasic_eval: closed form of the Basic branch on an n-step array. -/
theorem branchBasic_eval (m : String) (n : ℕ) (v : ℕ → ℝ) :
    branchBasic m (npArange n) ((List.range n).map v)
      = Except.ok ((List.range n).map (fun t =>
          if m == "Basic" then v t * Real.exp (-0.01 * (t : ℝ)) else v t)) := by
  cases hm : m == "Basic"
  · simp only [branchBasic, hm, bif_neg rfl]
  · simp only [branchBasic, hm, bif_pos rfl]
    exact npBinop_mul_maps (List.range n) v (fun t => Real.exp (-0.01 * (t : ℝ)))

/-- branchHydro_eval: closed form of the Hydro branch on a 100-step array. -/
theorem branchHydro_eval (m : String) (g : ℝ) (v : ℕ → ℝ) :
    branchHydro m g ((List.range 100).map v)
      = Except.ok ((List.range 100).map (fun t =>
          if pyInStr ("Hydro") m then v t * (1 * g / pyMax (hydraulic_flow g)) else v t)) := by
  cases hm : pyInStr ("Hydro") m
  · simp only [branchHydro, hm, bif_neg rfl]
  · simp only [branchHydro, hm, bif_pos rfl]
    rw [hydro_arr_eq]
    exact npBinop_mul_maps (List.range 100) v (fun _ => 1 * g / pyMax (hydraulic_flow g))

/-- branchThermal_eval: closed form of the thermal branch on a
100-step array. -/
theorem branchThermal_eval (m : String) (v : ℕ → ℝ) :
    branchThermal m ((List.range 100).map v)
      = Except.ok ((List.range 100).map (fun t =>
          if pyInStr ("HT") m then v t * (1 + 0.01 * (linVal 20 60 100 t - 20)) else v t)) := by
  cases hm : pyInStr ("HT") m
  · simp only [branchThermal, hm, bif_neg rfl]
  · simp only [branchThermal, hm, bif_pos rfl]
    rw [thermal_arr_eq]
    exact npBinop_mul_maps (List.range 100) v (fun t => 1 + 0.01 * (linVal 20 60 100 t - 20))

/-- branchBio_eval: closed form of the biodegradation branch on a
100-step array. -/
theorem branchBio_eval (m : String) (k : ℝ) (v : ℕ → ℝ) :
    branchBio m k ((List.range 100).map v)
      = Except.ok ((List.range 100).map (fun t =>
          if pyInStr ("B") m then v t * Real.exp (-k * (t : ℝ)) else v t)) := by
  cases hm : pyInStr ("B") m
  · simp only [branchBio, hm, bif_neg rfl]
  · simp only [branchBio, hm, bif_pos rfl, biodegradation]
    exact npBinop_mul_maps (List.range 100) v (fun t => Real.exp (-k * (t : ℝ)))

/-- branchChem_eval: closed form of the chemical branch on any array. -/
theorem branchChem_eval (m : String) (kd : ℝ) (l : List ℕ) (v : ℕ → ℝ) :
    branchChem m kd (l.map v)
      = Except.ok (l.map (fun t =>
          if pyInStr ("C") m then v t / (1 + kd) else v t)) := by
  cases hm : pyInStr ("C") m
  · simp only [branchChem, hm, bif_neg rfl]
  · simp only [branchChem, hm, bif_pos rfl, chemical_interactions]
    rw [List.map_map]
    rfl

/-- branchMech_eval: closed form of the mechanical branch on a
100-step array. -/
theorem branchMech_eval (m : String) (ω : ℕ → ℝ) (v : ℕ → ℝ) :
    branchMech m ω ((List.range 100).map v)
      = Except.ok ((List.range 100).map (fun t =>
          if pyInStr ("M") m then v t * (1 - |ω t|) else v t)) := by
  cases hm : pyInStr ("M") m
  · simp only [branchMech, hm, bif_neg rfl]
  · simp only [branchMech, hm, bif_pos rfl]
    rw [mech_arr_eq]
    exact npBinop_mul_maps (List.range 100) v (fun t => 1 - |ω t|)

/-- branchGas_eval: closed form of the gas branch on a 100-step array. -/
theorem branchGas_eval (m : String) (v : ℕ → ℝ) :
    branchGas m ((List.range 100).map v)
      = Except.ok ((List.range 100).map (fun t =>
          if pyInStr ("G") m then v t * (1 - linVal 0 1 100 t / pyMax gas_transport) else v t)) := by
  cases hm : pyInStr ("G") m
  · simp only [branchGas, hm, bif_neg rfl]
  · simp only [branchGas, hm, bif_pos rfl]
    rw [gas_arr_eq]
    exact npBinop_mul_maps (List.range 100) v (fun t => 1 - linVal 0 1 100 t / pyMax gas_transport)

/-- runSim_eval: a run with the default 100 time steps succeeds and
produces exactly the map of stepValue over the 100 time indices. -/
theorem runSim_eval (m : String) (c0 g k kd : ℝ) (ω : ℕ → ℝ) :
    runSimulation m 100 c0 g k kd ω
      = Except.ok ((List.range 100).map (stepValue m c0 g k kd ω)) := by
  unfold runSimulation
  rw [show (List.replicate 100 (1 : ℝ)).map (fun x => x * c0)
        = (List.range 100).map (fun _ => 1 * c0) by
      rw [map_const_range]; simp [List.map_replicate]]
  rw [branchBasic_eval, ok_bind, branchHydro_eval, ok_bind, branchThermal_eval, ok_bind,
    branchBio_eval, ok_bind, branchChem_eval, ok_bind, branchMech_eval, ok_bind,
    branchGas_eval]
  rfl

/-! Facts about pyMax: it is a member of a nonempty list and bounds
every member, hence the max of a constant array is its value and the
max of the gas ramp is 1. -/

/-- foldl_max_choice: a max-fold over a list lands on the seed or on a
member. -/
theorem foldl_max_choice (xs : List ℝ) (x : ℝ) :
    xs.foldl max x = x ∨ xs.foldl max x ∈ xs := by
  induction xs generalizing x with
  | nil => left; rfl
  | cons y ys ih =>
    rcases ih (max x y) with h | h
    · rcases max_choice x y with hc | hc
      · left; rw [List.foldl_cons, h, hc]
      · right; rw [List.foldl_cons, h, hc]; exact List.mem_cons_self y ys
    · right; exact List.mem_cons_of_mem y h

/-- seed_le_foldl_max: the seed is below a max-fold. -/
theorem seed_le_foldl_max (xs : List ℝ) (x : ℝ) :
    x ≤ xs.foldl max x := by
  induction xs generalizing x with
  | nil => exact le_refl x
  | cons y ys ih =>
    exact le_trans (le_max_left x y) (ih (max x y))

/-- mem_le_foldl_max: every member is below a max-fold. -/
theorem mem_le_foldl_max (xs : List ℝ) (x y : ℝ) (hy : y ∈ xs) :
    y ≤ xs.foldl max x := by
  induction xs generalizing x with
  | nil => cases hy
  | cons z zs ih =>
    rcases List.mem_cons.mp hy with h | h
    · subst h
      exact le_trans (le_max_right x y) (seed_le_foldl_max zs (max x y))
    · exact ih _ h

/-- pyMax_mem: the max of a nonempty array is one of its entries. -/
theorem pyMax_mem (l : List ℝ) (h : l ≠ []) : pyMax l ∈ l := by
  cases l with
  | nil => exact absurd rfl h
  | cons x xs =>
    rcases foldl_max_choice xs x with hc | hc
    · rw [pyMax, hc]; exact List.mem_cons_self x xs
    · exact List.mem_cons_of_mem x hc

/-- le_pyMax: the max of an array bounds every entry. -/
theorem le_pyMax (l : List ℝ) (y : ℝ) (hy : y ∈ l) : y ≤ pyMax l := by
  cases l with
  | nil => cases hy
  | cons x xs =>
    rcases List.mem_cons.mp hy with h | h
    · subst h; exact seed_le_foldl_max xs y
    · exact mem_le_foldl_max xs x y h

/-- pyMax_replicate: the max of a constant nonempty array is its value. -/
theorem pyMax_replicate (n : ℕ) (x : ℝ) : pyMax (List.replicate (n + 1) x) = x := by
  have : ∀ k : ℕ, (List.replicate k x).foldl max x = x := by
    intro k
    induction k with
    | zero => rfl
    | succ j ih => rw [List.replicate_succ, List.foldl_cons, max_self]; exact ih
  rw [List.replicate_succ, pyMax]
  exact this n

/-- pyMax_hydraulic_flow: max(flow) is the gradient value 1 * g. -/
theorem pyMax_hydraulic_flow (g : ℝ) : pyMax (hydraulic_flow g) = 1 * g := by
  rw [show hydraulic_flow g = List.replicate 100 (1 * g) by
    rw [hydraulic_flow, List.map_replicate]]
  exact pyMax_replicate 99 (1 * g)

/-- linVal_gas: the t-th gas ramp sample is t / 99. -/
theorem linVal_gas (t : ℕ) : linVal 0 1 100 t = (t : ℝ) / 99 := by
  rw [linVal]
  norm_num

/-- pyMax_gas_transport: max(gas) for the ramp np.linspace(0, 1, 100)
is exactly 1, the inclusive endpoint. -/
theorem pyMax_gas_transport : pyMax gas_transport = 1 := by
  apply le_antisymm
  · have hmem := pyMax_mem gas_transport (by
      rw [show gas_transport = (List.range 100).map (linVal 0 1 100) from rfl]
      simp)
    have hmem2 : pyMax gas_transport ∈ (List.range 100).map (linVal 0 1 100) := hmem
    rcases List.mem_map.mp hmem2 with ⟨t, ht, hval⟩
    rw [← hval, linVal_gas]
    have ht9 : (t : ℝ) ≤ 99 := by
      have := List.mem_range.mp ht
      exact_mod_cast by omega
    rw [div_le_one (by norm_num : (0 : ℝ) < 99)]
    exact ht9
  · apply le_pyMax
    rw [show gas_transport = (List.range 100).map (linVal 0 1 100) from rfl]
    refine List.mem_map.mpr ⟨99, ?_, ?_⟩
    · exact List.mem_range.mpr (by norm_num)
    · rw [linVal_gas]; norm_num

/-! Further helpers: the initial concentration array as a map, skip
forms of the branches, and extraction of one entry from an equality of
produced arrays. -/

/-- conc0_eq: np.ones(n) * c0 as a map over the n time indices. -/
theorem conc0_eq (n : ℕ) (c0 : ℝ) :
    (List.replicate n (1 : ℝ)).map (fun x => x * c0) = (List.range n).map (fun _ => 1 * c0) := by
  rw [map_const_range, List.map_replicate]

/-- branchBasic_skip: the Basic branch passes through any other model. -/
theorem branchBasic_skip (m : String) (h : (m == "Basic") = false) (time : List ℕ)
    (conc : List ℝ) : branchBasic m time conc = Except.ok conc := by
  simp only [branchBasic, h, bif_neg rfl]

/-- branchHydro_skip: the Hydro branch passes through when "Hydro" is
not a substring of the model name. -/
theorem branchHydro_skip (m : String) (h : pyInStr ("Hydro") m = false) (g : ℝ)
    (conc : List ℝ) : branchHydro m g conc = Except.ok conc := by
  simp only [branchHydro, h, bif_neg rfl]

/-- branchThermal_skip: the thermal branch passes through when "HT" is
not a substring of the model name. -/
theorem branchThermal_skip (m : String) (h : pyInStr ("HT") m = false)
    (conc : List ℝ) : branchThermal m conc = Except.ok conc := by
  simp only [branchThermal, h, bif_neg rfl]

/-- branchBio_skip: the biodegradation branch passes through when "B"
is not a substring of the model name. -/
theorem branchBio_skip (m : String) (h : pyInStr ("B") m = false) (k : ℝ)
    (conc : List ℝ) : branchBio m k conc = Except.ok conc := by
  simp only [branchBio, h, bif_neg rfl]

/-- map_range_elem: equal produced arrays have equal entries at every
time index. -/
theorem map_range_elem (N t : ℕ) (ht : t < N) (f fg : ℕ → ℝ)
    (h : (Except.ok ((List.range N).map f) : Except String (List ℝ))
        = Except.ok ((List.range N).map fg)) :
    f t = fg t := by
  have hl := Except.ok.inj h
  have h2 := congrArg (fun l : List ℝ => l[t]?) hl
  simp only [List.getElem?_map, List.getElem?_range ht, Option.map_some'] at h2
  exact Option.some.inj h2

/-! Claim theorems. -/

/-- C4: for every model type whose name contains "B", the
biodegradation transform multiplies the concentration series
elementwise by exp(-k * t), where k is the configured decay rate and t
the element index (on the length-100 arrays the pipeline feeds it). -/
theorem C4_bio_elementwise (m : String) (hB : pyInStr ("B") m = true) (k : ℝ) (v : ℕ → ℝ) :
    biodegradation ((List.range 100).map v) k
        = Except.ok ((List.range 100).map (fun t => v t * Real.exp (-k * (t : ℝ)))) ∧
    branchBio m k ((List.range 100).map v)
        = Except.ok ((List.range 100).map (fun t => v t * Real.exp (-k * (t : ℝ)))) := by
  have hbio : biodegradation ((List.range 100).map v) k
      = Except.ok ((List.range 100).map (fun t => v t * Real.exp (-k * (t : ℝ)))) := by
    rw [biodegradation]
    exact npBinop_mul_maps (List.range 100) v (fun t => Real.exp (-k * (t : ℝ)))
  refine ⟨hbio, ?_⟩
  simp only [branchBio, hB, bif_pos rfl]
  exact hbio

/-- C4 witness: the biodegradation branch of model "HTB" on the
constant array 2 with rate 1. -/
theorem C4_bio_elementwise_witness :
    biodegradation ((List.range 100).map (fun _ => (2 : ℝ))) 1
        = Except.ok ((List.range 100).map (fun t => (2 : ℝ) * Real.exp (-1 * (t : ℝ)))) ∧
    branchBio ("HTB") 1 ((List.range 100).map (fun _ => (2 : ℝ)))
        = Except.ok ((List.range 100).map (fun t => (2 : ℝ) * Real.exp (-1 * (t : ℝ)))) :=
  C4_bio_elementwise ("HTB") (by decide) 1 (fun _ => 2)

/-- parse_toCsv: reading the CSV export of any frame back yields
exactly the charted row pairs. -/
theorem parse_toCsv (fr : Frame) :
    parseCsv (toCsv fr) = some (chartSeries fr) := by
  have hrows : ∀ l : List (ℕ × ℝ),
      parseRows (l.map (fun p => [Cell.nat p.1, Cell.real p.2])) = some l := by
    intro l
    induction l with
    | nil => rfl
    | cons p ps ih =>
      simp only [List.map_cons, parseRows, parseCsvRow, ih]
  rw [toCsv, parseCsv]
  simp only [hrows (fr.time.zip fr.conc)]
  rfl

/-- C5: for every run that produces output, parsing the exported CSV
(columns Time, Concentration) yields exactly the charted sequence of
(time, concentration) pairs; both are read off the same data frame. -/
theorem C5_csv_roundtrip (m : String) (n : ℕ) (c0 g k kd : ℝ) (ω : ℕ → ℝ) (s : List ℝ)
    (_h : runSimulation m n c0 g k kd ω = Except.ok s) :
    parseCsv (toCsv (mkFrame n s)) = some (chartSeries (mkFrame n s)) :=
  parse_toCsv (mkFrame n s)

/-- C5 witness: the CSV round trip on the output of a concrete
100-step "Hydro" run. -/
theorem C5_csv_roundtrip_witness :
    parseCsv (toCsv (mkFrame 100 ((List.range 100).map (stepValue ("Hydro") 1 1 1 1 (fun _ => 0)))))
      = some (chartSeries
          (mkFrame 100 ((List.range 100).map (stepValue ("Hydro") 1 1 1 1 (fun _ => 0))))) :=
  C5_csv_roundtrip ("Hydro") 100 1 1 1 1 (fun _ => 0) _ (runSim_eval ("Hydro") 1 1 1 1 (fun _ => 0))

/-- C6: no degenerate-array guard exists: for the "Hydro" model with
hydraulic gradient 0 the maximum of the flow array is 0, and the run
still succeeds, each entry carrying the unguarded division of the flow
value by that zero maximum. -/
theorem C6_division_by_zero_max (c0 k kd : ℝ) (ω : ℕ → ℝ) :
    pyMax (hydraulic_flow 0) = 0 ∧
    runSimulation ("Hydro") 100 c0 0 k kd ω
      = Except.ok ((List.range 100).map (fun _ => c0 * (0 / pyMax (hydraulic_flow 0)))) := by
  constructor
  · rw [pyMax_hydraulic_flow]; norm_num
  · rw [runSim_eval]
    congr 1
    apply List.map_congr_left
    intro t _
    rw [show stepValue ("Hydro") c0 0 k kd ω t
        = (1 * c0) * (1 * 0 / pyMax (hydraulic_flow 0)) from rfl]
    ring

/-- thermal_ramp_eq: the temperature array is the linear ramp
20 + 40 * t / 99 over the 100 points, from 20 to 60 inclusive. -/
theorem thermal_ramp_eq :
    thermal_transport = (List.range 100).map (fun (t : ℕ) => 20 + 40 * (t : ℝ) / 99) := by
  rw [show thermal_transport = (List.range 100).map (linVal 20 60 100) from rfl]
  apply List.map_congr_left
  intro t _
  rw [linVal]
  norm_num

/-- C7: for every model type whose name contains "HT", the thermal
branch multiplies the t-th concentration entry by
1 + 0.01 * (T t - 20) with T the linear ramp from 20 to 60 over 100
points. -/
theorem C7_thermal (m : String) (hHT : pyInStr ("HT") m = true) (v : ℕ → ℝ) :
    thermal_transport = (List.range 100).map (fun (t : ℕ) => 20 + 40 * (t : ℝ) / 99) ∧
    branchThermal m ((List.range 100).map v)
      = Except.ok ((List.range 100).map (fun t =>
          v t * (1 + 0.01 * ((20 + 40 * (t : ℝ) / 99) - 20)))) := by
  refine ⟨thermal_ramp_eq, ?_⟩
  rw [branchThermal_eval]
  simp only [hHT, bif_pos rfl]
  congr 1
  apply List.map_congr_left
  intro t _
  rw [linVal]
  norm_num

/-- C7 witness: the thermal branch of model "HT" on the constant
array 3. -/
theorem C7_thermal_witness :
    thermal_transport = (List.range 100).map (fun (t : ℕ) => 20 + 40 * (t : ℝ) / 99) ∧
    branchThermal ("HT") ((List.range 100).map (fun _ => (3 : ℝ)))
      = Except.ok ((List.range 100).map (fun t =>
          (3 : ℝ) * (1 + 0.01 * ((20 + 40 * (t : ℝ) / 99) - 20)))) :=
  C7_thermal ("HT") (by decide) (fun _ => 3)

/-- normflow_ones: for a nonzero gradient the normalized flow array
flow / max(flow) is the all-ones array. -/
theorem normflow_ones (g : ℝ) (hg : g ≠ 0) :
    (hydraulic_flow g).map (fun x => x / pyMax (hydraulic_flow g)) = List.replicate 100 1 := by
  rw [hydro_arr_eq]
  rw [show (fun (_ : ℕ) => 1 * g / pyMax (hydraulic_flow g)) = (fun (_ : ℕ) => (1 : ℝ)) from
    funext (fun _ => by
      rw [pyMax_hydraulic_flow]
      exact div_self (by rwa [one_mul]))]
  exact map_const_range 100 1

/-- C9: for every nonzero hydraulic gradient the flow transform is the
identity (flow / max(flow) is all ones), so any two nonzero gradients
give identical runs: the gradient input never affects the output. -/
theorem C9_gradient_irrelevant (g gg : ℝ) (hg : g ≠ 0) (hgg : gg ≠ 0) :
    (hydraulic_flow g).map (fun x => x / pyMax (hydraulic_flow g)) = List.replicate 100 1 ∧
    ∀ (m : String) (n : ℕ) (c0 k kd : ℝ) (ω : ℕ → ℝ),
      runSimulation m n c0 g k kd ω = runSimulation m n c0 gg k kd ω := by
  refine ⟨normflow_ones g hg, ?_⟩
  intro m n c0 k kd ω
  have hfun : branchHydro m g = branchHydro m gg := by
    funext conc
    cases hc : pyInStr ("Hydro") m
    · simp only [branchHydro, hc, bif_neg rfl]
    · simp only [branchHydro, hc, bif_pos rfl, normflow_ones g hg, normflow_ones gg hgg]
  simp only [runSimulation, hfun]

/-- C9 witness: a run with gradient 2 equals the same run with
gradient 3. -/
theorem C9_gradient_irrelevant_witness :
    (hydraulic_flow 2).map (fun x => x / pyMax (hydraulic_flow 2)) = List.replicate 100 1 ∧
    runSimulation ("Hydro") 100 5 2 1 1 (fun _ => 0)
      = runSimulation ("Hydro") 100 5 3 1 1 (fun _ => 0) :=
  ⟨(C9_gradient_irrelevant 2 3 (by norm_num) (by norm_num)).1,
   (C9_gradient_irrelevant 2 3 (by norm_num) (by norm_num)).2 ("Hydro") 100 5 1 1 (fun _ => 0)⟩

/-- stepValue_gas_zero: the last (index 99) entry of an HTBCMG run is
0, because the gas factor 1 - gas/max(gas) vanishes at the inclusive
endpoint of np.linspace(0, 1, 100). -/
theorem stepValue_gas_zero (c0 g k kd : ℝ) (ω : ℕ → ℝ) :
    stepValue ("HTBCMG") c0 g k kd ω 99 = 0 := by
  rw [show stepValue ("HTBCMG") c0 g k kd ω 99
      = (((((1 * c0) * (1 + 0.01 * (linVal 20 60 100 99 - 20))) * Real.exp (-k * ((99 : ℕ) : ℝ)))
            / (1 + kd)) * (1 - |ω 99|)) * (1 - linVal 0 1 100 99 / pyMax gas_transport) from rfl,
    pyMax_gas_transport, linVal_gas]
  norm_num

/-- C10: for every selector model whose name contains "G" (only
"HTBCMG") and a 100-step run, the last produced concentration entry is
exactly 0, whatever the other inputs and the random draw. -/
theorem C10_gas_last_zero (m : String) (hm : m ∈ modelTypes) (hG : pyInStr ("G") m = true)
    (c0 g k kd : ℝ) (ω : ℕ → ℝ) (s : List ℝ)
    (h : runSimulation m 100 c0 g k kd ω = Except.ok s) :
    s.getLast? = some 0 := by
  have hm2 : m = "HTBCMG" := by
    fin_cases hm <;> first | rfl | exact absurd hG (by decide)
  subst hm2
  rw [runSim_eval] at h
  have hs : s = (List.range 100).map (stepValue ("HTBCMG") c0 g k kd ω) := (Except.ok.inj h).symm
  rw [hs, List.getLast?_eq_getElem?]
  have hlen : ((List.range 100).map (stepValue ("HTBCMG") c0 g k kd ω)).length = 100 := by
    simp
  rw [hlen, show (100 - 1 : ℕ) = 99 from rfl, List.getElem?_map,
    List.getElem?_range (by norm_num : (99 : ℕ) < 100), Option.map_some', stepValue_gas_zero]

/-- C10 witness: the last entry of a concrete HTBCMG run is 0. -/
theorem C10_gas_last_zero_witness :
    ((List.range 100).map (stepValue ("HTBCMG") 1 1 1 1 (fun _ => 0))).getLast? = some 0 :=
  C10_gas_last_zero ("HTBCMG") (by decide) (by decide) 1 1 1 1 (fun _ => 0) _
    (runSim_eval ("HTBCMG") 1 1 1 1 (fun _ => 0))

/-- C1 counterexample: a Basic run does NOT produce
initial_conc * exp(-0.01 * t): the "B" branch also fires, because "B"
is a substring of "Basic", multiplying in exp(-k_decay * t) as well.
Concrete input: 100 steps, initial concentration 100, decay rate 0.1. -/
theorem C1_counterexample :
    runSimulation ("Basic") 100 100 1 0.1 0.5 (fun _ => 0)
      ≠ Except.ok ((List.range 100).map (fun (t : ℕ) => 100 * Real.exp (-0.01 * (t : ℝ)))) := by
  intro h
  rw [runSim_eval] at h
  have h1 := map_range_elem 100 1 (by norm_num) _ _ h
  rw [show stepValue ("Basic") 100 1 0.1 0.5 (fun _ => 0) 1
      = (1 * 100) * Real.exp (-0.01 * ((1 : ℕ) : ℝ)) * Real.exp (-0.1 * ((1 : ℕ) : ℝ))
      from rfl] at h1
  have e1 : (0 : ℝ) < Real.exp (-0.01 * ((1 : ℕ) : ℝ)) := Real.exp_pos _
  have e2 : Real.exp (-0.1 * ((1 : ℕ) : ℝ)) < 1 := by
    have hlt := Real.exp_lt_exp.mpr (show -0.1 * ((1 : ℕ) : ℝ) < 0 by norm_num)
    rwa [Real.exp_zero] at hlt
  nlinarith [h1, e1, e2]

/-- C1 (amended): for the Basic model the (only producible, 100-step)
series has concentration c0 * exp(-0.01 * t) * exp(-k * t) at time t:
the documented factor together with the decay factor the accidental
"B"-in-"Basic" branch applies. -/
theorem C1_basic_formula_with_decay (c0 g k kd : ℝ) (ω : ℕ → ℝ) :
    runSimulation ("Basic") 100 c0 g k kd ω
      = Except.ok ((List.range 100).map (fun (t : ℕ) =>
          c0 * Real.exp (-0.01 * (t : ℝ)) * Real.exp (-k * (t : ℝ)))) := by
  rw [runSim_eval]
  congr 1
  apply List.map_congr_left
  intro t _
  rw [show stepValue ("Basic") c0 g k kd ω t
      = (1 * c0) * Real.exp (-0.01 * (t : ℝ)) * Real.exp (-k * (t : ℝ)) from rfl]
  ring

/-- C3 counterexample: the hydraulic-flow branch is NOT applied for
"HTBCMG": its guard tests the substring "Hydro", which "HTBCMG" does
not contain, and concretely two HTBCMG runs with different hydraulic
gradients (2 and 7) coincide. -/
theorem C3_counterexample :
    pyInStr ("Hydro") ("HTBCMG") = false ∧
    runSimulation ("HTBCMG") 100 100 2 0.1 0.5 (fun _ => 0)
      = runSimulation ("HTBCMG") 100 100 7 0.1 0.5 (fun _ => 0) := by
  refine ⟨by decide, ?_⟩
  rw [runSim_eval, runSim_eval]
  congr 1

/-- C3 (amended): selecting "HTBCMG" enables five of the six
placeholder processes - thermal, biodegradation, chemical, mechanical
and gas, but not hydraulic flow - so a 100-step HTBCMG run is exactly
the product of those five factors, independent of the gradient g. -/
theorem C3_htbcmg_five_processes (c0 g k kd : ℝ) (ω : ℕ → ℝ) :
    runSimulation ("HTBCMG") 100 c0 g k kd ω
      = Except.ok ((List.range 100).map (fun (t : ℕ) =>
          c0 * (1 + 0.4 * (t : ℝ) / 99) * Real.exp (-k * (t : ℝ)) / (1 + kd)
            * (1 - |ω t|) * (1 - (t : ℝ) / 99))) := by
  rw [runSim_eval]
  congr 1
  apply List.map_congr_left
  intro t _
  rw [show stepValue ("HTBCMG") c0 g k kd ω t
      = (((((1 * c0) * (1 + 0.01 * (linVal 20 60 100 t - 20))) * Real.exp (-k * (t : ℝ)))
            / (1 + kd)) * (1 - |ω t|)) * (1 - linVal 0 1 100 t / pyMax gas_transport)
      from rfl, pyMax_gas_transport, linVal_gas]
  have hlin : linVal 20 60 100 t = 20 + 40 * (t : ℝ) / 99 := by
    rw [linVal]; norm_num
  rw [hlin]
  ring

/-- C8: runs are deterministic in the six inputs exactly for the
model names without "M" (Basic, Hydro, HT, HTB): the noise draw is
then never read, while for both "M" models two draws can give
different outputs (shown concretely for HTBCM and for HTBCMG with
draws 0 and 1). -/
theorem C8_noise_dependence :
    modelTypes.filter (fun m => !(pyInStr ("M") m)) = ["Basic", "Hydro", "HT", "HTB"] ∧
    (∀ (m : String) (n : ℕ) (c0 g k kd : ℝ) (ω ωb : ℕ → ℝ), pyInStr ("M") m = false →
      runSimulation m n c0 g k kd ω = runSimulation m n c0 g k kd ωb) ∧
    runSimulation ("HTBCM") 100 100 1 0 0.5 (fun _ => 0)
      ≠ runSimulation ("HTBCM") 100 100 1 0 0.5 (fun _ => 1) ∧
    runSimulation ("HTBCMG") 100 100 1 0 0.5 (fun _ => 0)
      ≠ runSimulation ("HTBCMG") 100 100 1 0 0.5 (fun _ => 1) := by
  refine ⟨by decide, ?_, ?_, ?_⟩
  · intro m n c0 g k kd ω ωb hM
    have hfun : branchMech m ω = branchMech m ωb := by
      funext conc
      simp only [branchMech, hM, bif_neg rfl]
    simp only [runSimulation, hfun]
  · intro h
    rw [runSim_eval, runSim_eval] at h
    have h0 := map_range_elem 100 0 (by norm_num) _ _ h
    rw [show stepValue ("HTBCM") 100 1 0 0.5 (fun _ => 0) 0
        = ((((1 * 100) * (1 + 0.01 * (linVal 20 60 100 0 - 20))) * Real.exp (-0 * ((0 : ℕ) : ℝ)))
              / (1 + 0.5)) * (1 - |(0 : ℝ)|) from rfl,
      show stepValue ("HTBCM") 100 1 0 0.5 (fun _ => 1) 0
        = ((((1 * 100) * (1 + 0.01 * (linVal 20 60 100 0 - 20))) * Real.exp (-0 * ((0 : ℕ) : ℝ)))
              / (1 + 0.5)) * (1 - |(1 : ℝ)|) from rfl, linVal] at h0
    norm_num [Real.exp_zero] at h0
  · intro h
    rw [runSim_eval, runSim_eval] at h
    have h0 := map_range_elem 100 0 (by norm_num) _ _ h
    rw [show stepValue ("HTBCMG") 100 1 0 0.5 (fun _ => 0) 0
        = (((((1 * 100) * (1 + 0.01 * (linVal 20 60 100 0 - 20)))
                * Real.exp (-0 * ((0 : ℕ) : ℝ))) / (1 + 0.5)) * (1 - |(0 : ℝ)|))
            * (1 - linVal 0 1 100 0 / pyMax gas_transport) from rfl,
      show stepValue ("HTBCMG") 100 1 0 0.5 (fun _ => 1) 0
        = (((((1 * 100) * (1 + 0.01 * (linVal 20 60 100 0 - 20)))
                * Real.exp (-0 * ((0 : ℕ) : ℝ))) / (1 + 0.5)) * (1 - |(1 : ℝ)|))
            * (1 - linVal 0 1 100 0 / pyMax gas_transport) from rfl,
      linVal_gas, linVal] at h0
    norm_num [Real.exp_zero, zero_div] at h0

/-- runSim_err: for every selector model, a run whose step count is
not 100 dies in the first enabled branch that broadcasts one of the
hard-coded length-100 placeholder arrays against the n-step
concentration array ("B" fires even for "Basic"). -/
theorem runSim_err (m : String) (hm : m ∈ modelTypes) (n : ℕ) (hn : n ≠ 100) (h2 : 2 ≤ n)
    (c0 g k kd : ℝ) (ω : ℕ → ℝ) :
    runSimulation m n c0 g k kd ω
      = Except.error ("operands could not be broadcast together") := by
  fin_cases hm
  · -- "Basic": the Basic branch itself is n-against-n, the "B" branch dies
    unfold runSimulation
    rw [conc0_eq, branchBasic_eval, ok_bind, branchHydro_skip _ (by decide), ok_bind,
      branchThermal_skip _ (by decide), ok_bind]
    simp only [branchBio, bif_pos (show pyInStr ("B") ("Basic") = true by decide)]
    rw [biodegradation,
      npBinop_err _ _ _
        (by simp only [npArange, List.length_map, List.length_range]; exact hn)
        (by simp only [List.length_map, List.length_range]; omega)
        (by simp only [npArange, List.length_map, List.length_range]; omega),
      err_bind]
  · -- "Hydro": the Hydro branch dies
    unfold runSimulation
    rw [conc0_eq, branchBasic_skip _ (by decide), ok_bind]
    simp only [branchHydro, bif_pos (show pyInStr ("Hydro") ("Hydro") = true by decide)]
    rw [npBinop_err _ _ _
        (by simp only [hydraulic_flow, List.length_map, List.length_range,
              List.length_replicate]; exact hn)
        (by simp only [List.length_map, List.length_range]; omega)
        (by simp only [hydraulic_flow, List.length_map, List.length_replicate]; omega),
      err_bind]
  · -- "HT": the thermal branch dies
    unfold runSimulation
    rw [conc0_eq, branchBasic_skip _ (by decide), ok_bind, branchHydro_skip _ (by decide),
      ok_bind]
    simp only [branchThermal, bif_pos (show pyInStr ("HT") ("HT") = true by decide)]
    rw [npBinop_err _ _ _
        (by simp only [thermal_transport, linspace, List.length_map, List.length_range]; exact hn)
        (by simp only [List.length_map, List.length_range]; omega)
        (by simp only [thermal_transport, linspace, List.length_map, List.length_range]; omega),
      err_bind]
  · -- "HTB": the thermal branch dies first
    unfold runSimulation
    rw [conc0_eq, branchBasic_skip _ (by decide), ok_bind, branchHydro_skip _ (by decide),
      ok_bind]
    simp only [branchThermal, bif_pos (show pyInStr ("HT") ("HTB") = true by decide)]
    rw [npBinop_err _ _ _
        (by simp only [thermal_transport, linspace, List.length_map, List.length_range]; exact hn)
        (by simp only [List.length_map, List.length_range]; omega)
        (by simp only [thermal_transport, linspace, List.length_map, List.length_range]; omega),
      err_bind]
  · -- "HTBCM": the thermal branch dies first
    unfold runSimulation
    rw [conc0_eq, branchBasic_skip _ (by decide), ok_bind, branchHydro_skip _ (by decide),
      ok_bind]
    simp only [branchThermal, bif_pos (show pyInStr ("HT") ("HTBCM") = true by decide)]
    rw [npBinop_err _ _ _
        (by simp only [thermal_transport, linspace, List.length_map, List.length_range]; exact hn)
        (by simp only [List.length_map, List.length_range]; omega)
        (by simp only [thermal_transport, linspace, List.length_map, List.length_range]; omega),
      err_bind]
  · -- "HTBCMG": the thermal branch dies first
    unfold runSimulation
    rw [conc0_eq, branchBasic_skip _ (by decide), ok_bind, branchHydro_skip _ (by decide),
      ok_bind]
    simp only [branchThermal, bif_pos (show pyInStr ("HT") ("HTBCMG") = true by decide)]
    rw [npBinop_err _ _ _
        (by simp only [thermal_transport, linspace, List.length_map, List.length_range]; exact hn)
        (by simp only [List.length_map, List.length_range]; omega)
        (by simp only [thermal_transport, linspace, List.length_map, List.length_range]; omega),
      err_bind]

/-- C2 counterexample: with model "Basic" and the in-range step count
50, the run does not produce a 50-step series: it raises the numpy
broadcast error (the "B" branch pairs a 50-entry array with the
hard-coded 100-entry decay array). -/
theorem C2_counterexample :
    runSimulation ("Basic") 50 100 1 0.1 0.5 (fun _ => 0)
      = Except.error ("operands could not be broadcast together") := rfl

/-- C2 (amended): for every selector model and chosen step count in
10..500, the run produces a series if and only if the step count is
100; when it does, the produced frame pairs the integer time indices
0..n-1 with real concentration values and has length n. -/
theorem C2_run_length (m : String) (hm : m ∈ modelTypes) (n : ℕ) (c0 g k kd : ℝ) (ω : ℕ → ℝ)
    (h10 : 10 ≤ n) (h500 : n ≤ 500) :
    ((∃ s, runSimulation m n c0 g k kd ω = Except.ok s) ↔ n = 100) ∧
    ∀ p, runDF m n c0 g k kd ω = Except.ok p →
      p.length = n ∧ p.map Prod.fst = List.range n := by
  constructor
  · constructor
    · rintro ⟨s, hs⟩
      by_contra hn
      rw [runSim_err m hm n hn (by omega) c0 g k kd ω] at hs
      simp at hs
    · intro hn
      subst hn
      exact ⟨_, runSim_eval m c0 g k kd ω⟩
  · intro p hp
    by_cases hn : n = 100
    · subst hn
      have hdf : runDF m 100 c0 g k kd ω
          = Except.ok ((npArange 100).zip
              ((List.range 100).map (stepValue m c0 g k kd ω))) := by
        rw [runDF, runSim_eval]
        rfl
      rw [hdf] at hp
      have hp2 := Except.ok.inj hp
      subst hp2
      constructor
      · rw [List.length_zip]
        simp [npArange]
      · apply List.map_fst_zip
        simp [npArange]
    · rw [runDF, runSim_err m hm n hn (by omega) c0 g k kd ω] at hp
      simp [Except.map] at hp

/-- C2 witness: the amended statement at model "HTBCMG" with the
default 100 steps. -/
theorem C2_run_length_witness :
    ((∃ s, runSimulation ("HTBCMG") 100 1 1 1 1 (fun _ => 0) = Except.ok s) ↔ 100 = 100) ∧
    ∀ p, runDF ("HTBCMG") 100 1 1 1 1 (fun _ => 0) = Except.ok p →
      p.length = 100 ∧ p.map Prod.fst = List.range 100 :=
  C2_run_length ("HTBCMG") (by decide) 100 1 1 1 1 (fun _ => 0) (by norm_num) (by norm_num)

end

end App35
